import Mathlib

/-!
Verification development for the OAuth authentication subsystem of the
rentendashboard repository (src/src/auth/oauth_manager.py,
src/src/auth/callback_server.py, src/main.py).

Modelling conventions:
- A Python token dict is a `TokenRecord` of optional fields (a field absent
  from the dict, or JSON null, is `none`).
- `json.dumps`/`json.loads` of such a dict is `encodeToken`/`decodeToken`
  over an association list of string keys, one entry per present field.
- The Fernet cipher is an external library; it is modelled from its
  documented contract: authenticated symmetric encryption where decryption
  succeeds exactly under the encrypting key and returns the plaintext.
- Network calls are modelled by a `NetOutcome` oracle parameter (the HTTP
  response the token endpoint would give), since the code's behaviour is a
  pure function of that response.
- Python truthiness of an optional string (`if not x`) is `truthy`.
-/

/-- Python truthiness of an optional string: `None` and `""` are falsy. -/
def truthy : Option String → Bool
  | none => false
  | some s => s ≠ ""

/-- A JSON scalar value as it appears in a token record. -/
inductive JVal where
  | str (s : String)
  | num (n : Nat)
deriving DecidableEq, Repr

/-- A token record: the dict produced by a grant (`response.json()` or the
mock token). Each field is present (`some`) or absent/null (`none`),
mirroring `dict.get` semantics. -/
structure TokenRecord where
  access_token : Option String
  token_type : Option String
  expires_in : Option Nat
  refresh_token : Option String
  scope : Option String
deriving DecidableEq, Repr

/-- Lookup in an association list of string keys (Python `dict.get`). -/
def jget : List (String × JVal) → String → Option JVal
  | [], _ => none
  | (k', v) :: t, k => if k' = k then some v else jget t k

/-- Extract a string field (`dict.get(k)` when the value is a string). -/
def jgetStr (o : List (String × JVal)) (k : String) : Option String :=
  match jget o k with
  | some (JVal.str s) => some s
  | _ => none

/-- Extract a numeric field. -/
def jgetNum (o : List (String × JVal)) (k : String) : Option Nat :=
  match jget o k with
  | some (JVal.num n) => some n
  | _ => none

/-- `json.dumps` of a token dict: one entry per present field
(absent optional fields produce no entry). -/
def encodeToken (t : TokenRecord) : List (String × JVal) :=
  (match t.access_token with | some s => [("access_token", JVal.str s)] | none => []) ++
  (match t.token_type with | some s => [("token_type", JVal.str s)] | none => []) ++
  (match t.expires_in with | some n => [("expires_in", JVal.num n)] | none => []) ++
  (match t.refresh_token with | some s => [("refresh_token", JVal.str s)] | none => []) ++
  (match t.scope with | some s => [("scope", JVal.str s)] | none => [])

/-- `json.loads` of a serialized token back into a record: each field is
read with `dict.get`, absent fields become `none`. -/
def decodeToken (o : List (String × JVal)) : TokenRecord :=
  { access_token := jgetStr o "access_token"
    token_type := jgetStr o "token_type"
    expires_in := jgetNum o "expires_in"
    refresh_token := jgetStr o "refresh_token"
    scope := jgetStr o "scope" }

/-- Modelled from the library contract of `cryptography.fernet.Fernet`
(external dependency, not in this repository): a ciphertext produced under
a key decrypts to its plaintext under that key and fails under any other
key. The ciphertext carries the encrypting key and the serialized payload;
this captures exactly the authenticated-encryption contract the code
relies on. -/
structure Ciphertext where
  key : Nat
  payload : List (String × JVal)
deriving DecidableEq, Repr

/-- The OAuthManager state: the process cipher key and the per-identity
encrypted token store `self._tokens : Dict[str, bytes]`. -/
structure OAuthManager where
  key : Nat
  tokens : List (String × Ciphertext)
deriving DecidableEq, Repr

namespace OAuthManager

/-- `OAuthManager._encrypt_token`: `json.dumps` then Fernet encrypt. -/
def encrypt_token (m : OAuthManager) (t : TokenRecord) : Ciphertext :=
  ⟨m.key, encodeToken t⟩

/-- `OAuthManager._decrypt_token`: Fernet decrypt then `json.loads`.
Raises (here: `Except.error`) on ciphertext under a foreign key. -/
def decrypt_token (m : OAuthManager) (c : Ciphertext) : Except String TokenRecord :=
  if c.key = m.key then Except.ok (decodeToken c.payload)
  else Except.error "InvalidToken"

end OAuthManager

/-- Python dict assignment `d[k] = v` on an association list: replaces the
binding for `k` if present, otherwise appends it. -/
def updateAssoc {α : Type} : List (String × α) → String → α → List (String × α)
  | [], k, v => [(k, v)]
  | (k', v') :: t, k, v =>
      if k' = k then (k, v) :: t else (k', v') :: updateAssoc t k v

/-- Python `k in d` / `d[k]` lookup on an association list. -/
def lookupAssoc {α : Type} : List (String × α) → String → Option α
  | [], _ => none
  | (k', v) :: t, k => if k' = k then some v else lookupAssoc t k

namespace OAuthManager

/-- `self._tokens[bank_name] = encrypted_token`. -/
def setToken (m : OAuthManager) (name : String) (c : Ciphertext) : OAuthManager :=
  { m with tokens := updateAssoc m.tokens name c }

/-- `OAuthManager.get_access_token`: `None` if no record is stored, the
decrypted record's `access_token` field otherwise; a decryption error is
logged and swallowed into `None`. -/
def get_access_token (m : OAuthManager) (bank_name : String) : Option String :=
  match lookupAssoc m.tokens bank_name with
  | none => none
  | some enc =>
    match m.decrypt_token enc with
    | Except.error _ => none
    | Except.ok token_data => token_data.access_token

/-- `OAuthManager.is_token_valid`: `bank_name in self._tokens and
self.get_access_token(bank_name) is not None`. -/
def is_token_valid (m : OAuthManager) (bank_name : String) : Bool :=
  (lookupAssoc m.tokens bank_name).isSome && (m.get_access_token bank_name).isSome

end OAuthManager

/-- Bank configuration record, the fields the auth subsystem consumes.
Fields read with `cfg.get(k)` in the source are `Option String`. -/
structure BankConfig where
  name : String
  client_id : Option String
  client_secret : Option String
  redirect_uri : String
  username : Option String
  password : Option String
deriving DecidableEq, Repr

/-- App configuration: TLS material for the local HTTPS callback. -/
structure AppConfig where
  tls_cert_path : Option String
  tls_key_path : Option String
deriving DecidableEq, Repr

/-- Outcome of the POST to the bank's token endpoint, the oracle parameter
that determines the code's behaviour: HTTP 200 with a parsed JSON body,
a non-200 status with diagnostic text, a client-side timeout, or any
other raised exception. -/
inductive NetOutcome where
  | ok (body : TokenRecord)
  | httpError (status : Nat) (text : String)
  | timeout
  | exn (msg : String)
deriving DecidableEq, Repr

/-- Observable side-effecting steps of the orchestration, recorded as a
trace so that claims like "never starts the callback listener" and
"makes no network call" are statable. -/
inductive AuthAction where
  | openBrowser
  | startListener
  | awaitCallback
  | networkCall
  | simulateGrant
deriving DecidableEq, Repr

/-- The form body built by `exchange_code_for_token` (note: the CSRF
`state` is NOT among the fields sent). `['k']` dict access presumes the
key is configured; an unconfigured key is modelled as `""`. -/
def exchange_request_body (authorization_code : String) (bank_config : BankConfig) :
    List (String × String) :=
  [("grant_type", "authorization_code"),
   ("code", authorization_code),
   ("redirect_uri", bank_config.redirect_uri),
   ("client_id", bank_config.client_id.getD ""),
   ("client_secret", bank_config.client_secret.getD "")]

namespace OAuthManager

/-- `OAuthManager.exchange_code_for_token`: on HTTP 200 stores the
encrypted token under `bank_config['name']` and returns the response; on
non-200, timeout, or any exception raises `OAuthError` (modelled as
`Except.error`) without touching the store. The `state` parameter is
accepted but never used (no CSRF comparison happens here). -/
def exchange_code_for_token (m : OAuthManager) (authorization_code : String)
    (bank_config : BankConfig) (state : String) (net : NetOutcome) :
    OAuthManager × Except String TokenRecord :=
  match net with
  | NetOutcome.ok token_response =>
      (m.setToken bank_config.name (m.encrypt_token token_response),
       Except.ok token_response)
  | NetOutcome.httpError status text =>
      (m, Except.error ("Token exchange failed: " ++ toString status ++ " - " ++ text))
  | NetOutcome.timeout =>
      (m, Except.error "Token exchange timed out")
  | NetOutcome.exn e =>
      (m, Except.error ("Token exchange failed: " ++ e))

/-- `OAuthManager.password_grant_for_token`: fails fast when `username`
or `password` is absent/empty (Python truthiness), before any network
activity (the `AuthAction.networkCall` trace records whether the POST
happened); on HTTP 200 stores the encrypted token; on non-200 raises
`OAuthError`; a timeout propagates uncaught. -/
def password_grant_for_token (m : OAuthManager) (bank_config : BankConfig)
    (net : NetOutcome) : OAuthManager × List AuthAction × Except String TokenRecord :=
  if ¬ (truthy bank_config.username && truthy bank_config.password) then
    (m, [], Except.error "Username/password not provided for password grant")
  else
    match net with
    | NetOutcome.ok token_response =>
        (m.setToken bank_config.name (m.encrypt_token token_response),
         [AuthAction.networkCall], Except.ok token_response)
    | NetOutcome.httpError status text =>
        (m, [AuthAction.networkCall],
         Except.error ("Password grant failed: " ++ toString status ++ " - " ++ text))
    | NetOutcome.timeout =>
        (m, [AuthAction.networkCall], Except.error "TimeoutError")
    | NetOutcome.exn e =>
        (m, [AuthAction.networkCall], Except.error e)

/-- `OAuthManager.refresh_token`: raises `OAuthError` when no record is
stored for `bank_name`; inside the try block, decryption failure, a falsy
(`None` or `""`) `refresh_token` field, a non-200 response, a timeout and
any other exception are all re-raised wrapped in
"Token refresh failed: ..."; on HTTP 200 the stored record is overwritten
with the encrypted response. -/
def refresh_token (m : OAuthManager) (bank_name : String) (bank_config : BankConfig)
    (net : NetOutcome) : OAuthManager × Except String TokenRecord :=
  match lookupAssoc m.tokens bank_name with
  | none => (m, Except.error ("No stored token found for " ++ bank_name))
  | some enc =>
    match m.decrypt_token enc with
    | Except.error e => (m, Except.error ("Token refresh failed: " ++ e))
    | Except.ok current_token =>
      if ¬ truthy current_token.refresh_token then
        (m, Except.error ("Token refresh failed: No refresh token available for " ++ bank_name))
      else
        match net with
        | NetOutcome.ok token_response =>
            (m.setToken bank_name (m.encrypt_token token_response),
             Except.ok token_response)
        | NetOutcome.httpError status text =>
            (m, Except.error ("Token refresh failed: Token refresh failed: "
              ++ toString status ++ " - " ++ text))
        | NetOutcome.timeout =>
            (m, Except.error "Token refresh failed: TimeoutError")
        | NetOutcome.exn e =>
            (m, Except.error ("Token refresh failed: " ++ e))

/-- `OAuthManager.simulate_oauth_flow`: fabricates a mock token (the two
`secrets.token_urlsafe(16)` draws are the parameters `r1`, `r2`), stores
it encrypted, and returns it. Never fails. -/
def simulate_oauth_flow (m : OAuthManager) (bank_name : String) (r1 r2 : String) :
    OAuthManager × TokenRecord :=
  let mock_token : TokenRecord :=
    { access_token := some ("mock_access_token_" ++ r1)
      token_type := some "Bearer"
      expires_in := some 3600
      refresh_token := some ("mock_refresh_token_" ++ r2)
      scope := some "accounts transactions balances" }
  (m.setToken bank_name (m.encrypt_token mock_token), mock_token)

end OAuthManager

/-- The Callback Result dict written by `_handle_callback`. -/
structure CallbackResult where
  code : Option String
  state : Option String
  error : Option String
  error_description : Option String
deriving DecidableEq, Repr

/-- `_handle_callback`: extracts `code`, `state`, `error`,
`error_description` from the request's query string. -/
def handle_callback (query : List (String × String)) : CallbackResult :=
  { code := lookupAssoc query "code"
    state := lookupAssoc query "state"
    error := lookupAssoc query "error"
    error_description := lookupAssoc query "error_description" }

/-- The dict returned by `run_https_callback_server` on timeout. -/
def timeoutResult : CallbackResult :=
  { code := none, state := none
    error := some "timeout", error_description := some "No callback received" }

/-- The wait loop of `run_https_callback_server`: up to `fuel` iterations,
each sleeping one second (so the check in iteration `i` happens at time
`now + i`) and then polling `app['auth_result']`. `arrival` is the
external event "a GET /callback with this query string was served at
time `t`": the poll observes it at every check time `≥ t`. When the fuel
runs out the timeout dict is returned. -/
def serverLoop (arrival : Option (Nat × List (String × String))) :
    Nat → Nat → CallbackResult
  | 0, _ => timeoutResult
  | Nat.succ n, now =>
    match arrival with
    | some (t, q) =>
        if t ≤ now then handle_callback q else serverLoop arrival n (now + 1)
    | none => serverLoop arrival n (now + 1)

/-- `run_https_callback_server` (the part after a successful bind): waits
up to `timeout` seconds for a callback and returns the captured result or
the timeout dict; the second component is whether the listener is still
serving after return — the `finally: await runner.cleanup()` makes it
`false` on every exit path. -/
def run_https_callback_server (timeout : Nat)
    (arrival : Option (Nat × List (String × String))) : CallbackResult × Bool :=
  (serverLoop arrival timeout 1, false)

/-- Environment of one authorization-code flow attempt: whether the TLS
bind (`load_cert_chain` / socket bind) succeeds, whether the browser
launch succeeds (failure is only logged), the listener timeout (120 in
the source), the callback arrival, and the token-endpoint outcome. -/
structure FlowEnv where
  tlsBindOk : Bool
  browserOk : Bool
  listener_timeout : Nat
  arrival : Option (Nat × List (String × String))
  net : NetOutcome
deriving Repr

namespace OAuthManager

/-- The tail of `authorization_code_flow` after `result = await
run_https_callback_server(...)`: raise on a truthy `error` field, raise
on a falsy `code`, otherwise exchange the code. Note the callback's
returned `state` field is never read — only the originally generated
`state` is forwarded to the exchange. -/
def flow_handle_result (m : OAuthManager) (bank_config : BankConfig) (state : String)
    (result : CallbackResult) (net : NetOutcome) (acts : List AuthAction) :
    OAuthManager × List AuthAction × Except String TokenRecord :=
  if truthy result.error then
    (m, acts, Except.error ("Authorization error: "
      ++ (if truthy result.error_description then result.error_description.getD ""
          else result.error.getD "")))
  else if ¬ truthy result.code then
    (m, acts, Except.error "No authorization code received")
  else
    match m.exchange_code_for_token (result.code.getD "") bank_config state net with
    | (mNew, r) => (mNew, acts ++ [AuthAction.networkCall], r)

/-- `OAuthManager.authorization_code_flow`: checks TLS material is
configured (else raises `OAuthError` before any listener starts), tries
to open the browser (failure only logged — flow continues either way),
runs the callback listener, then handles the captured result
(`flow_handle_result`). The generated CSRF `state` is passed to the
exchange but the callback's returned `state` is never compared against
it. -/
def authorization_code_flow (m : OAuthManager) (bank_config : BankConfig)
    (app_config : AppConfig) (state : String) (env : FlowEnv) :
    OAuthManager × List AuthAction × Except String TokenRecord :=
  let cert := app_config.tls_cert_path
  let key := app_config.tls_key_path
  if ¬ (truthy cert && truthy key) then
    (m, [], Except.error "TLS_CERT_PATH/TLS_KEY_PATH must be configured for HTTPS redirect")
  else
    let acts := [AuthAction.openBrowser]
    if ¬ env.tlsBindOk then
      (m, acts ++ [AuthAction.startListener], Except.error "TLS bind failed")
    else
      let acts := acts ++ [AuthAction.startListener, AuthAction.awaitCallback]
      let result := (run_https_callback_server env.listener_timeout env.arrival).1
      m.flow_handle_result bank_config state result env.net acts

end OAuthManager

/-- The grant-selection section of `main()`: when `client_id`,
`client_secret`, `tls_cert_path` and `tls_key_path` are all truthy,
attempt the authorization-code flow and fall back to
`simulate_oauth_flow` on any exception; otherwise run
`simulate_oauth_flow` directly. Returns the final manager state and the
trace of actions taken. -/
def mainAuth (m : OAuthManager) (primary : BankConfig) (app_cfg : AppConfig)
    (state : String) (env : FlowEnv) (r1 r2 : String) : OAuthManager × List AuthAction :=
  if truthy primary.client_id && truthy primary.client_secret &&
     truthy app_cfg.tls_cert_path && truthy app_cfg.tls_key_path then
    match m.authorization_code_flow primary app_cfg state env with
    | (mNew, acts, Except.ok _) => (mNew, acts)
    | (mNew, acts, Except.error _) =>
        ((mNew.simulate_oauth_flow primary.name r1 r2).1, acts ++ [AuthAction.simulateGrant])
  else
    ((m.simulate_oauth_flow primary.name r1 r2).1, [AuthAction.simulateGrant])

/-- Invariant of the token store: every stored value is the encrypted
serialization (under the manager's own cipher) of some token record. -/
def encryptedOnly (m : OAuthManager) : Prop :=
  ∀ p ∈ m.tokens, ∃ r : TokenRecord, p.2 = m.encrypt_token r

/-! ### Helper lemmas -/

theorem decodeToken_encodeToken (t : TokenRecord) :
    decodeToken (encodeToken t) = t := by
  rcases t with ⟨a, b, c, d, e⟩
  cases a <;> cases b <;> cases c <;> cases d <;> cases e <;> rfl

theorem mem_updateAssoc {α : Type} (l : List (String × α)) (k : String) (v : α)
    (p : String × α) (hp : p ∈ updateAssoc l k v) : p = (k, v) ∨ p ∈ l := by
  induction l with
  | nil =>
    simp only [updateAssoc, List.mem_singleton] at hp
    exact Or.inl hp
  | cons hd tl ih =>
    simp only [updateAssoc] at hp
    by_cases h : hd.1 = k
    · rw [if_pos h] at hp
      rcases List.mem_cons.mp hp with h1 | h2
      · exact Or.inl h1
      · exact Or.inr (List.mem_cons_of_mem _ h2)
    · rw [if_neg h] at hp
      rcases List.mem_cons.mp hp with h1 | h2
      · exact Or.inr (h1 ▸ List.mem_cons_self _ _)
      · rcases ih h2 with h3 | h4
        · exact Or.inl h3
        · exact Or.inr (List.mem_cons_of_mem _ h4)

theorem serverLoop_none (n now : Nat) :
    serverLoop none n now = timeoutResult := by
  induction n generalizing now with
  | zero => rfl
  | succ k ih => simpa [serverLoop] using ih (now + 1)

theorem serverLoop_captures (q : List (String × String)) (n : Nat) :
    ∀ now t : Nat, 1 ≤ n → t + 1 ≤ now + n →
      serverLoop (some (t, q)) n now = handle_callback q := by
  induction n with
  | zero => intro now t h1 h2; omega
  | succ k ih =>
    intro now t h1 h2
    by_cases hle : t ≤ now
    · simp [serverLoop, hle]
    · have hk : 1 ≤ k := by omega
      have hk2 : t + 1 ≤ (now + 1) + k := by omega
      simpa [serverLoop, hle] using ih (now + 1) t hk hk2

theorem encryptedOnly_setToken (m : OAuthManager) (name : String) (t : TokenRecord)
    (h : encryptedOnly m) :
    encryptedOnly (m.setToken name (m.encrypt_token t)) := by
  intro p hp
  rcases mem_updateAssoc m.tokens name (m.encrypt_token t) p hp with h1 | h2
  · subst h1; exact ⟨t, rfl⟩
  · rcases h p h2 with ⟨r, hr⟩
    exact ⟨r, hr⟩

/-- A concrete manager holding one stored record whose `access_token`
field is the empty string. -/
def mgrWithEmptyAccessToken : OAuthManager :=
  OAuthManager.setToken ⟨0, []⟩ "bank"
    (OAuthManager.encrypt_token ⟨0, []⟩ ⟨some "", none, none, none, none⟩)

/-! ### Claims -/

/-- C1 (counterexample): a stored record whose `access_token` is the
empty string still makes `is_token_valid` return `true`, because the
code tests `get_access_token(...) is not None`, not non-emptiness. This
refutes the claim that `is_token_valid` returns false when the stored
record's `access_token` field is the empty string. -/
theorem is_token_valid_empty_string_counterexample :
    mgrWithEmptyAccessToken.get_access_token "bank" = some "" ∧
    mgrWithEmptyAccessToken.is_token_valid "bank" = true := by
  exact ⟨rfl, rfl⟩

/-- C1 (amended): `is_token_valid(identity)` returns true iff a record is
stored for that identity, the stored ciphertext decrypts under the
process cipher, and the decrypted record's `access_token` field is
present (not null/absent); in particular it returns false when the field
is absent, but an empty-string `access_token` still counts as valid. -/
theorem is_token_valid_iff (m : OAuthManager) (name : String) :
    m.is_token_valid name = true ↔
      ∃ enc r, lookupAssoc m.tokens name = some enc ∧
        m.decrypt_token enc = Except.ok r ∧ r.access_token.isSome = true := by
  cases hl : lookupAssoc m.tokens name with
  | none =>
    simp [OAuthManager.is_token_valid, OAuthManager.get_access_token, hl]
  | some enc =>
    cases hd : m.decrypt_token enc with
    | error e =>
      simp [OAuthManager.is_token_valid, OAuthManager.get_access_token, hl, hd]
    | ok r =>
      simp [OAuthManager.is_token_valid, OAuthManager.get_access_token, hl, hd]

/-- C2: decrypting the encryption of any token record yields the record
unchanged — every field is preserved and absent optional fields remain
absent. -/
theorem decrypt_encrypt_roundtrip (m : OAuthManager) (t : TokenRecord) :
    m.decrypt_token (m.encrypt_token t) = Except.ok t := by
  simp [OAuthManager.decrypt_token, OAuthManager.encrypt_token, decodeToken_encodeToken]

/-- C4: when no request to `/callback` arrives before the timeout
expires, `run_https_callback_server` returns normally with a result
whose `error` field is "timeout" (and the listener is torn down). -/
theorem callback_server_timeout (timeout : Nat) :
    run_https_callback_server timeout none = (timeoutResult, false) ∧
    (run_https_callback_server timeout none).1.error = some "timeout" := by
  refine ⟨?_, ?_⟩ <;>
    simp [run_https_callback_server, serverLoop_none, timeoutResult]

/-- C5: if a single GET `/callback?code=ABC&state=XYZ` is served while
the listener is waiting (arrival time within the timeout window),
`await_callback` returns `code = "ABC"`, `state = "XYZ"`, and the
listener is no longer serving after return. -/
theorem callback_server_capture (timeout t : Nat)
    (h1 : 1 ≤ timeout) (h2 : t ≤ timeout) :
    run_https_callback_server timeout (some (t, [("code", "ABC"), ("state", "XYZ")])) =
      ({ code := some "ABC", state := some "XYZ",
         error := none, error_description := none }, false) := by
  unfold run_https_callback_server
  rw [serverLoop_captures _ timeout 1 t h1 (by omega)]
  rfl

/-- C5 (witness): concrete instance with `timeout_seconds = 2` and the
request served during the first second. -/
theorem callback_server_capture_witness :
    (1 ≤ 2 ∧ 1 ≤ 2) ∧
    run_https_callback_server 2 (some (1, [("code", "ABC"), ("state", "XYZ")])) =
      ({ code := some "ABC", state := some "XYZ",
         error := none, error_description := none }, false) :=
  ⟨⟨by decide, by decide⟩, callback_server_capture 2 1 (by decide) (by decide)⟩

/-- A concrete bank configuration with client credentials but no
username/password, used to instantiate theorems with hypotheses. -/
def cfgW : BankConfig :=
  ⟨"bank", some "x", some "y", "https://localhost:8443/callback", none, none⟩

/-- A concrete flow environment for witnesses. -/
def envW : FlowEnv :=
  ⟨true, true, 120, none, NetOutcome.timeout⟩

/-- A concrete manager holding one stored record without a
`refresh_token` field. -/
def mgrNoRefresh : OAuthManager :=
  OAuthManager.setToken ⟨0, []⟩ "bank"
    (OAuthManager.encrypt_token ⟨0, []⟩ ⟨some "tok", none, none, none, none⟩)

/-- C6: `refresh_token` raises `OAuthError` when no record is stored for
the identity, and when the stored record decrypts to one whose
`refresh_token` field is absent or empty (Python-falsy). -/
theorem refresh_token_errors (m : OAuthManager) (bank_name : String)
    (cfg : BankConfig) (net : NetOutcome) :
    (lookupAssoc m.tokens bank_name = none →
      (m.refresh_token bank_name cfg net).2 =
        Except.error ("No stored token found for " ++ bank_name)) ∧
    (∀ enc r, lookupAssoc m.tokens bank_name = some enc →
      m.decrypt_token enc = Except.ok r → truthy r.refresh_token = false →
      (m.refresh_token bank_name cfg net).2 =
        Except.error ("Token refresh failed: No refresh token available for " ++ bank_name)) := by
  constructor
  · intro h
    simp [OAuthManager.refresh_token, h]
  · intro enc r h1 h2 h3
    simp [OAuthManager.refresh_token, h1, h2, h3]

/-- C6 (witness): the empty store and a store whose only record lacks a
refresh token, both at concrete inputs. -/
theorem refresh_token_errors_witness :
    ((⟨0, []⟩ : OAuthManager).refresh_token "b" cfgW NetOutcome.timeout).2 =
        Except.error ("No stored token found for " ++ "b") ∧
    (mgrNoRefresh.refresh_token "bank" cfgW NetOutcome.timeout).2 =
        Except.error ("Token refresh failed: No refresh token available for " ++ "bank") :=
  ⟨(refresh_token_errors ⟨0, []⟩ "b" cfgW NetOutcome.timeout).1 rfl,
   (refresh_token_errors mgrNoRefresh "bank" cfgW NetOutcome.timeout).2
      (OAuthManager.encrypt_token ⟨0, []⟩ ⟨some "tok", none, none, none, none⟩)
      ⟨some "tok", none, none, none, none⟩ rfl rfl rfl⟩

/-- C7: `password_grant_for_token` raises `OAuthError` whenever
`username` or `password` is absent or empty in the bank configuration,
makes no network call in that case, and leaves the store untouched. -/
theorem password_grant_guard (m : OAuthManager) (cfg : BankConfig) (net : NetOutcome)
    (h : truthy cfg.username = false ∨ truthy cfg.password = false) :
    (m.password_grant_for_token cfg net).2.2 =
      Except.error "Username/password not provided for password grant" ∧
    AuthAction.networkCall ∉ (m.password_grant_for_token cfg net).2.1 ∧
    (m.password_grant_for_token cfg net).1 = m := by
  have hc : (truthy cfg.username && truthy cfg.password) = false := by
    rcases h with h | h <;> simp [h]
  simp [OAuthManager.password_grant_for_token, hc]

/-- C7 (witness): a configuration with no username/password. -/
theorem password_grant_guard_witness :
    (truthy cfgW.username = false ∨ truthy cfgW.password = false) ∧
    (((⟨0, []⟩ : OAuthManager).password_grant_for_token cfgW NetOutcome.timeout).2.2 =
        Except.error "Username/password not provided for password grant" ∧
      AuthAction.networkCall ∉
        ((⟨0, []⟩ : OAuthManager).password_grant_for_token cfgW NetOutcome.timeout).2.1 ∧
      ((⟨0, []⟩ : OAuthManager).password_grant_for_token cfgW NetOutcome.timeout).1 =
        (⟨0, []⟩ : OAuthManager)) :=
  ⟨Or.inl rfl,
   password_grant_guard ⟨0, []⟩ cfgW NetOutcome.timeout (Or.inl rfl)⟩

/-- C8: the CSRF `state` is generated but never checked. (a) the `state`
argument of `exchange_code_for_token` does not influence its output;
(b) two callback results that differ only in their `state` field lead to
identical subsequent flow behaviour and result; (c) `state` is not among
the fields of the code-exchange request body. -/
theorem csrf_state_not_validated (m : OAuthManager) (code : String)
    (cfg : BankConfig) (s1 s2 : String) (net : NetOutcome)
    (result : CallbackResult) (st : Option String) (acts : List AuthAction) :
    m.exchange_code_for_token code cfg s1 net =
        m.exchange_code_for_token code cfg s2 net ∧
    m.flow_handle_result cfg s1 { result with state := st } net acts =
        m.flow_handle_result cfg s1 result net acts ∧
    (exchange_request_body code cfg).all (fun p => p.1 ≠ "state") = true := by
  refine ⟨?_, rfl, ?_⟩
  · cases net <;> rfl
  · rfl

/-- C9: every operation that writes the token store (code exchange,
password grant, refresh, simulated grant) preserves the invariant that
every stored value is the encrypted serialization of a token record. -/
theorem store_encrypted_invariant (m : OAuthManager) (cfg : BankConfig)
    (bank_name code state r1 r2 : String) (net : NetOutcome)
    (h : encryptedOnly m) :
    encryptedOnly (m.exchange_code_for_token code cfg state net).1 ∧
    encryptedOnly (m.password_grant_for_token cfg net).1 ∧
    encryptedOnly (m.refresh_token bank_name cfg net).1 ∧
    encryptedOnly (m.simulate_oauth_flow bank_name r1 r2).1 := by
  refine ⟨?_, ?_, ?_, ?_⟩
  · cases net with
    | ok b => exact encryptedOnly_setToken m cfg.name b h
    | httpError s t => exact h
    | timeout => exact h
    | exn e => exact h
  · by_cases hc : ¬ (truthy cfg.username && truthy cfg.password)
    · unfold OAuthManager.password_grant_for_token
      rw [if_pos hc]
      exact h
    · unfold OAuthManager.password_grant_for_token
      rw [if_neg hc]
      cases net with
      | ok b => exact encryptedOnly_setToken m cfg.name b h
      | httpError s t => exact h
      | timeout => exact h
      | exn e => exact h
  · cases hl : lookupAssoc m.tokens bank_name with
    | none => simpa [OAuthManager.refresh_token, hl] using h
    | some enc =>
      cases hd : m.decrypt_token enc with
      | error e => simpa [OAuthManager.refresh_token, hl, hd] using h
      | ok r =>
        by_cases hrt : truthy r.refresh_token
        · cases net with
          | ok b =>
            simpa [OAuthManager.refresh_token, hl, hd, hrt] using
              encryptedOnly_setToken m bank_name b h
          | httpError s t => simpa [OAuthManager.refresh_token, hl, hd, hrt] using h
          | timeout => simpa [OAuthManager.refresh_token, hl, hd, hrt] using h
          | exn e => simpa [OAuthManager.refresh_token, hl, hd, hrt] using h
        · simpa [OAuthManager.refresh_token, hl, hd, hrt] using h
  · exact encryptedOnly_setToken m bank_name _ h

/-- C9 (witness): the invariant holds of the empty store and is carried
through each operation at concrete inputs. -/
theorem store_encrypted_invariant_witness :
    encryptedOnly ⟨0, []⟩ ∧
    (encryptedOnly ((⟨0, []⟩ : OAuthManager).exchange_code_for_token "c" cfgW "s"
        (NetOutcome.ok ⟨some "t", none, none, none, none⟩)).1 ∧
     encryptedOnly ((⟨0, []⟩ : OAuthManager).password_grant_for_token cfgW
        (NetOutcome.ok ⟨some "t", none, none, none, none⟩)).1 ∧
     encryptedOnly ((⟨0, []⟩ : OAuthManager).refresh_token "bank" cfgW
        (NetOutcome.ok ⟨some "t", none, none, none, none⟩)).1 ∧
     encryptedOnly ((⟨0, []⟩ : OAuthManager).simulate_oauth_flow "bank" "r1" "r2").1) :=
  ⟨by simp [encryptedOnly],
   store_encrypted_invariant ⟨0, []⟩ cfgW "bank" "c" "s" "r1" "r2"
     (NetOutcome.ok ⟨some "t", none, none, none, none⟩) (by simp [encryptedOnly])⟩

/-- C10: whenever `exchange_code_for_token`, `password_grant_for_token`
or `refresh_token` fails (non-200, timeout, or any raised exception),
the token store is exactly what it was before the call. -/
theorem grant_failure_atomicity (m : OAuthManager) (code bank_name state : String)
    (cfg : BankConfig) (net : NetOutcome) :
    (∀ e, (m.exchange_code_for_token code cfg state net).2 = Except.error e →
      (m.exchange_code_for_token code cfg state net).1 = m) ∧
    (∀ e, (m.password_grant_for_token cfg net).2.2 = Except.error e →
      (m.password_grant_for_token cfg net).1 = m) ∧
    (∀ e, (m.refresh_token bank_name cfg net).2 = Except.error e →
      (m.refresh_token bank_name cfg net).1 = m) := by
  refine ⟨?_, ?_, ?_⟩
  · intro e he
    cases net with
    | ok b => simp [OAuthManager.exchange_code_for_token] at he
    | httpError s t => rfl
    | timeout => rfl
    | exn e2 => rfl
  · intro e he
    by_cases hc : ¬ (truthy cfg.username && truthy cfg.password)
    · unfold OAuthManager.password_grant_for_token
      rw [if_pos hc]
    · unfold OAuthManager.password_grant_for_token at he ⊢
      rw [if_neg hc] at he ⊢
      cases net with
      | ok b => simp at he
      | httpError s t => rfl
      | timeout => rfl
      | exn e2 => rfl
  · intro e he
    cases hl : lookupAssoc m.tokens bank_name with
    | none => simp [OAuthManager.refresh_token, hl]
    | some enc =>
      cases hd : m.decrypt_token enc with
      | error e2 => simp [OAuthManager.refresh_token, hl, hd]
      | ok r =>
        by_cases hrt : truthy r.refresh_token
        · cases net with
          | ok b => simp [OAuthManager.refresh_token, hl, hd, hrt] at he
          | httpError s t => simp [OAuthManager.refresh_token, hl, hd, hrt]
          | timeout => simp [OAuthManager.refresh_token, hl, hd, hrt]
          | exn e2 => simp [OAuthManager.refresh_token, hl, hd, hrt]
        · simp [OAuthManager.refresh_token, hl, hd, hrt]

/-- C10 (witness): a timed-out exchange, a failed password grant and a
failed refresh at concrete inputs all leave the store unchanged. -/
theorem grant_failure_atomicity_witness :
    (((⟨0, []⟩ : OAuthManager).exchange_code_for_token "c" cfgW "s" NetOutcome.timeout).2 =
        Except.error "Token exchange timed out") ∧
    ((⟨0, []⟩ : OAuthManager).exchange_code_for_token "c" cfgW "s" NetOutcome.timeout).1 =
        (⟨0, []⟩ : OAuthManager) :=
  ⟨rfl,
   (grant_failure_atomicity ⟨0, []⟩ "c" "bank" "s" cfgW NetOutcome.timeout).1
     "Token exchange timed out" rfl⟩

/-- C3: grant selection is a function of the available configuration:
with client credentials and TLS material all configured, the
authorization-code flow is attempted and any failure falls back to the
simulated grant (never aborting); with credentials but no TLS paths, the
simulated grant is selected directly and the callback listener is never
started. -/
theorem grant_selection (m : OAuthManager) (primary : BankConfig)
    (app_cfg : AppConfig) (state r1 r2 : String) (env : FlowEnv)
    (hid : truthy primary.client_id = true)
    (hsec : truthy primary.client_secret = true) :
    (truthy app_cfg.tls_cert_path = true → truthy app_cfg.tls_key_path = true →
      ((∀ mNew acts tok,
          m.authorization_code_flow primary app_cfg state env = (mNew, acts, Except.ok tok) →
          mainAuth m primary app_cfg state env r1 r2 = (mNew, acts)) ∧
       (∀ mNew acts e,
          m.authorization_code_flow primary app_cfg state env = (mNew, acts, Except.error e) →
          mainAuth m primary app_cfg state env r1 r2 =
            ((mNew.simulate_oauth_flow primary.name r1 r2).1,
             acts ++ [AuthAction.simulateGrant])))) ∧
    ((truthy app_cfg.tls_cert_path = false ∨ truthy app_cfg.tls_key_path = false) →
      mainAuth m primary app_cfg state env r1 r2 =
        ((m.simulate_oauth_flow primary.name r1 r2).1, [AuthAction.simulateGrant]) ∧
      AuthAction.startListener ∉ (mainAuth m primary app_cfg state env r1 r2).2) := by
  constructor
  · intro hcert hkey
    have hcond : (truthy primary.client_id && truthy primary.client_secret &&
        truthy app_cfg.tls_cert_path && truthy app_cfg.tls_key_path) = true := by
      simp [hid, hsec, hcert, hkey]
    constructor
    · intro mNew acts tok hflow
      unfold mainAuth
      rw [if_pos hcond, hflow]
    · intro mNew acts e hflow
      unfold mainAuth
      rw [if_pos hcond, hflow]
  · intro hno
    have hcond : (truthy primary.client_id && truthy primary.client_secret &&
        truthy app_cfg.tls_cert_path && truthy app_cfg.tls_key_path) = false := by
      rcases hno with h | h <;> simp [h]
    constructor
    · unfold mainAuth
      rw [if_neg (by simp [hcond])]
    · unfold mainAuth
      rw [if_neg (by simp [hcond])]
      simp

/-- C3 (witness): credentials present, TLS paths absent — the simulated
grant is selected directly and no listener action appears. -/
theorem grant_selection_witness :
    (truthy cfgW.client_id = true ∧ truthy cfgW.client_secret = true ∧
     truthy (none : Option String) = false) ∧
    (mainAuth ⟨0, []⟩ cfgW ⟨none, none⟩ "s" envW "r1" "r2" =
        (((⟨0, []⟩ : OAuthManager).simulate_oauth_flow cfgW.name "r1" "r2").1,
         [AuthAction.simulateGrant]) ∧
     AuthAction.startListener ∉ (mainAuth ⟨0, []⟩ cfgW ⟨none, none⟩ "s" envW "r1" "r2").2) :=
  ⟨⟨rfl, rfl, rfl⟩,
   (grant_selection ⟨0, []⟩ cfgW ⟨none, none⟩ "s" "r1" "r2" envW rfl rfl).2 (Or.inl rfl)⟩
